import Mathlib

/-!
Shallow embedding of the two core engines of the Sensora backend:

* `src/backend/app/core/physio_rag.py` — the Physio-RAG rule retrieval
  engine (keyword-fallback path and exact condition matching), and
* `src/backend/app/chemistry/ifra_validator.py` — the IFRA compliance
  validator.

Python floats are modeled as exact rationals (`ℚ`).  Rational literals and
additions are written through `mkRat`-based helpers so that every
definition evaluates inside the kernel (`Rat.add` is `@[irreducible]` in
the ambient library); `qadd_eq_add` below proves the helper is ordinary
rational addition.  Python strings are `String`; `str.lower()` is modeled
character-wise by `strLower` and the substring operator `in` by
`pySubstring`.  Python dicts keyed by strings are association lists with
dict insertion semantics (`dictInsert`: overwrite keeps the position,
fresh keys append), matching insertion-ordered Python dicts.
-/

namespace Sensora

/-- A primitive JSON/Python value appearing inside a list
(numbers and strings; the rule data uses lists of allergen names). -/
inductive Atom where
  | num (q : ℚ)
  | str (s : String)
deriving DecidableEq, Repr

/-- A dynamically typed value of the rule conditions and user profiles:
a number, a string, or a list (as in `physio_rules.json` and the profile
dicts passed to `PhysioRAG.query`). -/
inductive Value where
  | num (q : ℚ)
  | str (s : String)
  | vlist (xs : List Atom)
deriving DecidableEq, Repr

/-- Model of `isinstance(x, (int, float))` in `physio_rag.py`. -/
def Value.isNum : Value → Bool
  | .num _ => true
  | _ => false

/-- Model of `isinstance(x, list)` in `physio_rag.py`. -/
def Value.isList : Value → Bool
  | .vlist _ => true
  | _ => false

def atomToValue : Atom → Value
  | .num q => .num q
  | .str s => .str s

/-- Python `u < v` restricted to the guarded numeric case of
`_keyword_query` (both operands already checked numeric); `false`
elsewhere (those branches are unreachable under the guards). -/
def valueLt : Value → Value → Bool
  | .num a, .num b => decide (a < b)
  | _, _ => false

/-- Python `u > v` under the numeric guards, as `valueLt`. -/
def valueGt : Value → Value → Bool
  | .num a, .num b => decide (a > b)
  | _, _ => false

/-- Python `v in u` for a list `u` (membership by `==`); `false` on a
non-list, unreachable under the `isinstance(user_value, list)` guard. -/
def valueContains (v : Value) : Value → Bool
  | .vlist xs => xs.any (fun a => decide (atomToValue a = v))
  | _ => false

/-- The `condition` dict of a `PhysioRule`: `parameter`, `operator` and
an optional `value` (`condition.get('value')` is `None` when absent). -/
structure Condition where
  parameter : String
  operator : String
  value : Option Value
deriving DecidableEq, Repr

/-- The `PhysioRule` dataclass of `physio_rag.py`. -/
structure PhysioRule where
  id : String
  condition : Condition
  target : String
  action : String
  factor : Option ℚ := Option.none
  threshold : Option (List (String × Value)) := Option.none
  substitute : Option (List (String × Value)) := Option.none
  reasoning : String := ""
deriving DecidableEq, Repr

/-- The `RetrievedRule` dataclass of `physio_rag.py`. -/
structure RetrievedRule where
  rule : PhysioRule
  relevance_score : ℚ
  matched_condition : String
deriving DecidableEq, Repr

/-- A user profile dict (`user_profile` argument of `query` /
`get_applicable_rules`). -/
abbrev Profile := List (String × Value)

/-- Rendering of a value inside the f-string
`f"{param} {operator} {value}"` (presentation only). -/
def Value.pyStr : Value → String
  | .num q => toString q
  | .str s => s
  | .vlist xs =>
      "[" ++ String.intercalate ", "
        (xs.map (fun a => match a with | .num q => toString q | .str s => s)) ++ "]"

/-- The matched-condition text `f"{param} {operator} {value}"` built by
`_keyword_query` at a match (where `value` is not `None`). -/
def matchedConditionStr (c : Condition) : String :=
  c.parameter ++ " " ++ c.operator ++ " "
    ++ (match c.value with
        | some v => v.pyStr
        | Option.none => "None")

/-- The `RetrievedRule` built by `_keyword_query` for a matching rule:
fixed relevance `0.9` and the condition description. -/
def mkRetrieved (rule : PhysioRule) : RetrievedRule :=
  { rule := rule, relevance_score := mkRat 9 10,
    matched_condition := matchedConditionStr rule.condition }

/-- The per-rule matching of `_keyword_query` (`physio_rag.py` lines
305–327): skip on a missing profile key or a `None` rule value, then the
`if/elif` operator chain computing `matches`. -/
def keywordRuleMatches (profile : Profile) (rule : PhysioRule) : Bool :=
  match rule.condition.value with
  | Option.none => false
  | some value =>
    match List.lookup rule.condition.parameter profile with
    | Option.none => false
    | some user_value =>
      if rule.condition.operator = "<" ∧ user_value.isNum ∧ value.isNum then
        valueLt user_value value
      else if rule.condition.operator = ">" ∧ user_value.isNum ∧ value.isNum then
        valueGt user_value value
      else if rule.condition.operator = "==" then
        decide (user_value = value)
      else if rule.condition.operator = "contains" ∧ user_value.isList then
        valueContains value user_value
      else false

/-- The per-rule matching of `get_applicable_rules` (`physio_rag.py`
lines 360–380): the same skips, then the `if/elif` chain that appends the
rule. -/
def applicableRuleMatches (profile : Profile) (rule : PhysioRule) : Bool :=
  match rule.condition.value with
  | Option.none => false
  | some value =>
    match List.lookup rule.condition.parameter profile with
    | Option.none => false
    | some user_value =>
      if rule.condition.operator = "<" ∧ user_value.isNum ∧ value.isNum then
        valueLt user_value value
      else if rule.condition.operator = ">" ∧ user_value.isNum ∧ value.isNum then
        valueGt user_value value
      else if rule.condition.operator = "==" ∧ user_value = value then
        true
      else if rule.condition.operator = "contains" ∧ user_value.isList
          ∧ valueContains value user_value then
        true
      else false

/-- One step of the stable descending insertion: an element is placed
before the first element whose relevance does not exceed its own. -/
def insertDesc (x : RetrievedRule) : List RetrievedRule → List RetrievedRule
  | [] => [x]
  | y :: ys =>
      if y.relevance_score ≤ x.relevance_score then x :: y :: ys
      else y :: insertDesc x ys

/-- Model of `matched.sort(key=lambda x: x.relevance_score, reverse=True)`:
Python's sort is stable, and a stable sort by a fixed key is unique, so
it is modeled by the stable descending insertion sort. -/
def sortByRelevanceDesc (l : List RetrievedRule) : List RetrievedRule :=
  l.foldr insertDesc []

/-- Embedding of `_keyword_query` (`physio_rag.py` lines 301–336): collect the
matching rules with fixed relevance `0.9`, sort descending by relevance
(stably), truncate to `n_results`. -/
def keywordQuery (rules : List PhysioRule) (profile : Profile) (n_results : Nat) :
    List RetrievedRule :=
  let matched := rules.filterMap (fun rule =>
    if keywordRuleMatches profile rule then some (mkRetrieved rule) else Option.none)
  (sortByRelevanceDesc matched).take n_results

/-- Embedding of `get_applicable_rules` (`physio_rag.py` lines 345–382): every rule
whose condition matches, in load order, unranked and uncapped. -/
def get_applicable_rules (rules : List PhysioRule) (profile : Profile) :
    List PhysioRule :=
  rules.filter (fun rule => applicableRuleMatches profile rule)

/-! Error-aware evaluation.

The following `Except` evaluators re-run the same Python code while
modeling the operations that can raise in Python — dict subscription
(`KeyError`) and ordering comparisons on non-numbers (`TypeError`) — as
fallible steps, exactly where the source executes them and under the
source's guards.  Proving them equal to `Except.ok` of the pure
evaluators shows the guards make rule evaluation total. -/

/-- Model of `user_profile[param]`: Python dict subscription, `KeyError` when the
key is absent. -/
def pySubscript (profile : Profile) (key : String) : Except String Value :=
  match List.lookup key profile with
  | some v => Except.ok v
  | Option.none => Except.error "KeyError"

/-- Python `u < v`: a `TypeError` unless both operands are numbers. -/
def pyLtE : Value → Value → Except String Bool
  | .num a, .num b => Except.ok (decide (a < b))
  | _, _ => Except.error "TypeError"

/-- Python `u > v`: a `TypeError` unless both operands are numbers. -/
def pyGtE : Value → Value → Except String Bool
  | .num a, .num b => Except.ok (decide (a > b))
  | _, _ => Except.error "TypeError"

/-- The `_keyword_query` per-rule evaluation with fallible primitives in
the places Python could raise: the subscript after the `param not in
user_profile` test, and the comparisons behind their `isinstance`
guards. -/
def evalRuleE (profile : Profile) (rule : PhysioRule) : Except String Bool :=
  match rule.condition.value with
  | Option.none => Except.ok false
  | some value =>
    if (List.lookup rule.condition.parameter profile).isNone then Except.ok false
    else
      match pySubscript profile rule.condition.parameter with
      | Except.error e => Except.error e
      | Except.ok user_value =>
        if rule.condition.operator = "<" ∧ user_value.isNum ∧ value.isNum then
          pyLtE user_value value
        else if rule.condition.operator = ">" ∧ user_value.isNum ∧ value.isNum then
          pyGtE user_value value
        else if rule.condition.operator = "==" then
          Except.ok (decide (user_value = value))
        else if rule.condition.operator = "contains" ∧ user_value.isList then
          Except.ok (valueContains value user_value)
        else Except.ok false

/-- The match-collection loop of `_keyword_query` over the fallible
evaluator. -/
def keywordMatchedE (profile : Profile) : List PhysioRule → Except String (List RetrievedRule)
  | [] => Except.ok []
  | rule :: rest =>
    match evalRuleE profile rule with
    | Except.error e => Except.error e
    | Except.ok b =>
      match keywordMatchedE profile rest with
      | Except.error e => Except.error e
      | Except.ok tail =>
          Except.ok ((if b then [mkRetrieved rule] else []) ++ tail)

/-- Embedding of `_keyword_query` over the fallible evaluator. -/
def keywordQueryE (rules : List PhysioRule) (profile : Profile) (n_results : Nat) :
    Except String (List RetrievedRule) :=
  match keywordMatchedE profile rules with
  | Except.error e => Except.error e
  | Except.ok matched => Except.ok ((sortByRelevanceDesc matched).take n_results)

/-- The collection loop of `get_applicable_rules` over the fallible
evaluator. -/
def applicableRulesE (profile : Profile) : List PhysioRule → Except String (List PhysioRule)
  | [] => Except.ok []
  | rule :: rest =>
    match evalRuleE profile rule with
    | Except.error e => Except.error e
    | Except.ok b =>
      match applicableRulesE profile rest with
      | Except.error e => Except.error e
      | Except.ok tail => Except.ok ((if b then [rule] else []) ++ tail)

/-! PhysioRAG state: rule loading and engine setup.

`PhysioRAG.initialize` calls `_load_rules`, which appends every rule of
`physio_rules.json` to `self._rules` (resetting the list only when the
file is absent), then sets `self._initialized`.  The ChromaDB collection
and embedder are the external vector capability (absent in fallback
mode) and are outside this model; the rule list and the initialized flag
are the state the claims are about.  The file content is passed
explicitly as `Option (List PhysioRule)` (`none` = file absent). -/

structure RAGState where
  rules : List PhysioRule
  initialized : Bool
deriving DecidableEq, Repr

/-- The `PhysioRAG.__init__` state: no rules, not initialized. -/
def ragInitState : RAGState := { rules := [], initialized := false }

/-- Embedding of `_load_rules` (`physio_rag.py` lines 93–115): on a missing file the
rule list is reset to `[]`; otherwise every parsed rule is appended to
the existing `self._rules`. -/
def load_rules (file : Option (List PhysioRule)) (st : RAGState) : RAGState :=
  match file with
  | Option.none => { st with rules := [] }
  | some rs => { st with rules := st.rules ++ rs }

/-- Embedding of `initialize` (`physio_rag.py` lines 70–84), fallback mode: load the
rules, then mark the engine initialized. -/
def initEngine (file : Option (List PhysioRule)) (st : RAGState) : RAGState :=
  let st := load_rules file st
  { st with initialized := true }

/-! IFRA validator (`ifra_validator.py`). -/

/-- Model of `str.lower()`, character-wise (ASCII, as the standards data). -/
def strLower (s : String) : String := String.mk (s.data.map Char.toLower)

/-- Whether `needle` starts `haystack` (character lists). -/
def leadMatch : List Char → List Char → Bool
  | [], _ => true
  | _ :: _, [] => false
  | a :: as, b :: bs => a = b && leadMatch as bs

/-- Whether `needle` occurs somewhere in `haystack` (character lists). -/
def hasSub (needle : List Char) : List Char → Bool
  | [] => leadMatch needle []
  | b :: bs => leadMatch needle (b :: bs) || hasSub needle bs

/-- Python `needle in haystack` on strings: substring containment (the
empty string is contained in everything). -/
def pySubstring (needle haystack : String) : Bool :=
  hasSub needle.data haystack.data

/-- An entry of `restricted_substances` in `ifra_standards.json`.
`name` is accessed with `s['name']` (required); the other keys are read
with `.get` and so are optional. -/
structure RestrictedSubstance where
  name : String
  cas : Option String := Option.none
  max_concentration_cat1 : Option ℚ := Option.none
  max_concentration_cat2 : Option ℚ := Option.none
  reason : Option String := Option.none
deriving DecidableEq, Repr

/-- An entry of `allergens_declaration_required`. -/
structure AllergenEntry where
  name : String
  cas : Option String := Option.none
  threshold_cat1 : Option ℚ := Option.none
  threshold_cat2 : Option ℚ := Option.none
deriving DecidableEq, Repr

/-- An entry of `phototoxicity_limits`. -/
structure PhototoxEntry where
  name : String
  max_concentration_cat1 : Option ℚ := Option.none
  reason : Option String := Option.none
deriving DecidableEq, Repr

/-- A per-category entry of `total_allergen_limits`. -/
structure CategoryAllergenLimit where
  max_total_percentage : Option ℚ := Option.none
deriving DecidableEq, Repr

/-- The `total_allergen_limits` table. -/
structure TotalAllergenLimitsTable where
  cat1_leave_on : Option CategoryAllergenLimit := Option.none
  cat2_rinse_off : Option CategoryAllergenLimit := Option.none
deriving DecidableEq, Repr

/-- The parsed `ifra_standards.json` (each section read with
`self._standards.get(..., [])`, hence a plain list; the
`total_allergen_limits` dict read with `.get(..., {})`). -/
structure Standards where
  restricted_substances : List RestrictedSubstance := []
  allergens_declaration_required : List AllergenEntry := []
  phototoxicity_limits : List PhototoxEntry := []
  total_allergen_limits : Option TotalAllergenLimitsTable := Option.none
deriving DecidableEq, Repr

/-- An ingredient dict passed to `validate_formula`
(`ing.get('name', '')`, `ing.get('concentration', 0)`, `ing.get('cas')`;
the defaults are absorbed into the fields). -/
structure Ingredient where
  name : String
  concentration : ℚ
  cas : Option String := Option.none
deriving DecidableEq, Repr

/-- The `IFRAViolation` dataclass. -/
structure IFRAViolation where
  ingredient_name : String
  cas_number : Option String
  violation_type : String
  current_concentration : ℚ
  max_allowed : ℚ
  severity : String
  recommendation : String
deriving DecidableEq, Repr

/-- One entry appended to `allergens_to_declare`. -/
structure AllergenDeclaration where
  name : String
  cas : Option String
  concentration : ℚ
  threshold : ℚ
deriving DecidableEq, Repr

/-- The `IFRAReport` dataclass. -/
structure IFRAReport where
  is_compliant : Bool
  violations : List IFRAViolation
  allergens_to_declare : List AllergenDeclaration
  total_allergen_load : ℚ
  product_category : String
  summary : String
deriving DecidableEq, Repr

/-- Python dict assignment `d[k] = v`: overwriting keeps the key's
position, a fresh key is appended (insertion-ordered dicts). -/
def dictInsert {α : Type} (k : String) (v : α) :
    List (String × α) → List (String × α)
  | [] => [(k, v)]
  | (k', v') :: rest =>
      if k' = k then (k, v) :: rest else (k', v') :: dictInsert k v rest

/-- A dict comprehension `{key(x): x for x in xs}` as in the lookup maps
of `validate_formula` (later duplicate keys overwrite earlier ones). -/
def buildMap {α : Type} (key : α → String) (xs : List α) : List (String × α) :=
  xs.foldl (fun m x => dictInsert (key x) x m) []

/-- Rational addition written through `mkRat` so that it evaluates in
the kernel; `qadd_eq_add` proves it is `· + ·` on `ℚ`. -/
def qadd (a b : ℚ) : ℚ :=
  mkRat (a.num * b.den + b.num * a.den) (a.den * b.den)

/-- The Python `total += c` accumulation from `0.0`, left to right. -/
def qsum (l : List ℚ) : ℚ := l.foldl qadd 0

/-- The `banned` violation built at `ifra_validator.py` lines 109–117. -/
def bannedRestrictedViolation (ing : Ingredient) (restricted : RestrictedSubstance) :
    IFRAViolation :=
  { ingredient_name := ing.name
    cas_number := restricted.cas
    violation_type := "banned"
    current_concentration := ing.concentration
    max_allowed := 0
    severity := "critical"
    recommendation := "Remove " ++ ing.name ++ " - banned under IFRA. "
      ++ restricted.reason.getD "" }

/-- The `over_limit` violation built at lines 120–128 (`max_conc` is the
entry's `max_concentration_cat1` with `.get` default `0`). -/
def overLimitViolation (ing : Ingredient) (restricted : RestrictedSubstance) :
    IFRAViolation :=
  { ingredient_name := ing.name
    cas_number := restricted.cas
    violation_type := "over_limit"
    current_concentration := ing.concentration
    max_allowed := restricted.max_concentration_cat1.getD 0
    severity := "critical"
    recommendation := "Reduce " ++ ing.name ++ " to max "
      ++ toString (restricted.max_concentration_cat1.getD 0) ++ "%. "
      ++ restricted.reason.getD "" }

/-- The restricted-substance check of `validate_formula` (lines
102–128): exact lowercased-name lookup in the restricted map, then
`banned` when the cat1 limit defaults or equals `0`, else `over_limit`
when the concentration strictly exceeds it. -/
def restrictedViolations (restricted_map : List (String × RestrictedSubstance))
    (ing : Ingredient) : List IFRAViolation :=
  match List.lookup (strLower ing.name) restricted_map with
  | Option.none => []
  | some restricted =>
    if restricted.max_concentration_cat1.getD 0 = 0 then
      [bannedRestrictedViolation ing restricted]
    else if ing.concentration > restricted.max_concentration_cat1.getD 0 then
      [overLimitViolation ing restricted]
    else []

/-- The `phototoxicity` violation built at lines 135–143. -/
def phototoxViolation (ing : Ingredient) (phototox : PhototoxEntry) : IFRAViolation :=
  { ingredient_name := ing.name
    cas_number := Option.none
    violation_type := "phototoxicity"
    current_concentration := ing.concentration
    max_allowed := phototox.max_concentration_cat1.getD 100
    severity := "critical"
    recommendation := "Reduce " ++ ing.name ++ " to max "
      ++ toString (phototox.max_concentration_cat1.getD 100)
      ++ "% for phototoxicity. " ++ phototox.reason.getD "" }

/-- The phototoxicity check of `validate_formula` (lines 130–143): for
every map entry, bidirectional substring match on the lowercased names,
then a critical violation when the concentration exceeds the entry's
cat1 limit (`.get` default `100`). -/
def phototoxViolations (phototox_map : List (String × PhototoxEntry))
    (ing : Ingredient) : List IFRAViolation :=
  phototox_map.filterMap (fun entry =>
    if pySubstring entry.1 (strLower ing.name) ∨ pySubstring (strLower ing.name) entry.1 then
      if ing.concentration > entry.2.max_concentration_cat1.getD 100 then
        some (phototoxViolation ing entry.2)
      else Option.none
    else Option.none)

/-- The `banned` allergen violation built at lines 152–160. -/
def bannedAllergenViolation (ing : Ingredient) (allergen : AllergenEntry) :
    IFRAViolation :=
  { ingredient_name := ing.name
    cas_number := allergen.cas
    violation_type := "banned"
    current_concentration := ing.concentration
    max_allowed := 0
    severity := "critical"
    recommendation := "Remove " ++ ing.name ++ " - banned allergen" }

/-- The violations emitted by the allergen-declaration check (lines
145–160): for every allergen-map entry matching by bidirectional
substring, a `banned` critical violation when its cat1 threshold
(`.get` default `0.001`) is `0`. -/
def allergenBannedViolations (allergen_map : List (String × AllergenEntry))
    (ing : Ingredient) : List IFRAViolation :=
  allergen_map.filterMap (fun entry =>
    if pySubstring entry.1 (strLower ing.name) ∨ pySubstring (strLower ing.name) entry.1 then
      if entry.2.threshold_cat1.getD (mkRat 1 1000) = 0 then
        some (bannedAllergenViolation ing entry.2)
      else Option.none
    else Option.none)

/-- The declarations collected by the allergen check (lines 161–169):
for every matching entry with a nonzero threshold, when the
concentration reaches the threshold the ingredient is recorded for
declaration (its concentration is added to the allergen load). -/
def allergenDecls (allergen_map : List (String × AllergenEntry))
    (ing : Ingredient) : List AllergenDeclaration :=
  allergen_map.filterMap (fun entry =>
    if pySubstring entry.1 (strLower ing.name) ∨ pySubstring (strLower ing.name) entry.1 then
      if entry.2.threshold_cat1.getD (mkRat 1 1000) = 0 then Option.none
      else if ing.concentration ≥ entry.2.threshold_cat1.getD (mkRat 1 1000) then
        some { name := ing.name
               cas := entry.2.cas
               concentration := ing.concentration
               threshold := entry.2.threshold_cat1.getD (mkRat 1 1000) }
      else Option.none
    else Option.none)

/-- All violations appended while processing one ingredient, in the
order of the source: restricted check, phototoxicity loop, allergen
loop. -/
def perIngredientViolations (restricted_map : List (String × RestrictedSubstance))
    (phototox_map : List (String × PhototoxEntry))
    (allergen_map : List (String × AllergenEntry))
    (ing : Ingredient) : List IFRAViolation :=
  restrictedViolations restricted_map ing
    ++ phototoxViolations phototox_map ing
    ++ allergenBannedViolations allergen_map ing

/-- Model of `self._standards.get('total_allergen_limits', {}).get('cat1_leave_on', {})
.get('max_total_percentage', 1.0)` (lines 172–173). -/
def maxTotalAllergen (std : Standards) : ℚ :=
  match std.total_allergen_limits with
  | Option.none => 1
  | some table =>
    match table.cat1_leave_on with
    | Option.none => 1
    | some cat => cat.max_total_percentage.getD 1

/-- The aggregate `allergen_load` warning violation (lines 176–184). -/
def allergenLoadViolation (total max_total : ℚ) : IFRAViolation :=
  { ingredient_name := "Total Allergens"
    cas_number := Option.none
    violation_type := "allergen_load"
    current_concentration := total
    max_allowed := max_total
    severity := "warning"
    recommendation := "Total allergen load " ++ toString total
      ++ "% exceeds " ++ toString max_total ++ "% recommendation" }

/-- The per-ingredient loop's violation accumulation (`validate_formula`
lines 96–169): one pass over the ingredients against the three lookup
maps of lines 91–93. -/
def formulaViolations0 (std : Standards) (ingredients : List Ingredient) :
    List IFRAViolation :=
  ingredients.flatMap (fun ing =>
    perIngredientViolations
      (buildMap (fun s => strLower s.name) std.restricted_substances)
      (buildMap (fun p => strLower p.name) std.phototoxicity_limits)
      (buildMap (fun a => strLower a.name) std.allergens_declaration_required)
      ing)

/-- The `allergens_to_declare` accumulated over the ingredient loop. -/
def formulaDecls (std : Standards) (ingredients : List Ingredient) :
    List AllergenDeclaration :=
  ingredients.flatMap (fun ing =>
    allergenDecls (buildMap (fun a => strLower a.name) std.allergens_declaration_required) ing)

/-- The `total_allergen_load` accumulated over the ingredient loop (one
`+=` per declared entry, left to right from `0.0`). -/
def formulaLoad (std : Standards) (ingredients : List Ingredient) : ℚ :=
  qsum ((formulaDecls std ingredients).map (fun d => d.concentration))

/-- The final violation list (lines 171–184): the per-ingredient
violations, then the aggregate allergen-load warning when the load
exceeds the cap. -/
def formulaViolations (std : Standards) (ingredients : List Ingredient) :
    List IFRAViolation :=
  if formulaLoad std ingredients > maxTotalAllergen std then
    formulaViolations0 std ingredients
      ++ [allergenLoadViolation (formulaLoad std ingredients) (maxTotalAllergen std)]
  else formulaViolations0 std ingredients

/-- Embedding of `validate_formula` (`ifra_validator.py` lines 69–205) for loaded
standards `std`: the per-ingredient checks, the aggregate allergen-load
warning, the compliance decision by counting critical violations, and
the three-way summary. -/
def validate_formula (std : Standards) (ingredients : List Ingredient)
    (product_category : String) : IFRAReport :=
  let violations := formulaViolations std ingredients
  let allergens_to_declare := formulaDecls std ingredients
  let critical_violations := violations.filter (fun v => v.severity = "critical")
  let is_compliant : Bool := decide (critical_violations.length = 0)
  let summary :=
    if is_compliant ∧ violations.isEmpty then
      "Formula is fully IFRA compliant with no issues detected."
    else if is_compliant then
      "Formula is compliant with " ++ toString violations.length ++ " warning(s). "
        ++ toString allergens_to_declare.length ++ " allergen(s) require declaration."
    else
      "Formula has " ++ toString critical_violations.length
        ++ " critical violation(s) that must be resolved for IFRA compliance."
  { is_compliant := is_compliant
    violations := violations
    allergens_to_declare := allergens_to_declare
    total_allergen_load := formulaLoad std ingredients
    product_category := product_category
    summary := summary }

/-- Embedding of `get_max_concentration` (`ifra_validator.py` lines 207–232): first
restricted entry with an exact lowercased-name match, else the first
phototoxicity entry whose lowercased name is contained in the queried
name (one direction only), else `None`. -/
def get_max_concentration (std : Standards) (ingredient_name : String)
    (product_category : String) : Option ℚ :=
  match std.restricted_substances.find?
      (fun restricted => strLower restricted.name == strLower ingredient_name) with
  | some restricted => restricted.max_concentration_cat1
  | Option.none =>
    match std.phototoxicity_limits.find?
        (fun phototox => pySubstring (strLower phototox.name) (strLower ingredient_name)) with
    | some phototox => phototox.max_concentration_cat1
    | Option.none => Option.none

/-! IFRAValidator load state. -/

/-- The mutable loading state of `IFRAValidator`: the `_standards` dict
(initially empty) and the `_loaded` flag. -/
structure IFRAState where
  standards : Standards
  loaded : Bool
deriving DecidableEq, Repr

/-- The `IFRAValidator.__init__` state: empty standards, not loaded. -/
def ifraInitState : IFRAState := { standards := {}, loaded := false }

/-- Embedding of `_load_standards` (`ifra_validator.py` lines 52–67): a no-op when
already loaded; otherwise install the file's content (or the explicit
empty sections when the file is absent) and set the flag.  The file
content is passed explicitly as `Option Standards`. -/
def load_standards (file : Option Standards) (st : IFRAState) : IFRAState :=
  if st.loaded then st
  else
    match file with
    | Option.none =>
        { standards := { restricted_substances := []
                         allergens_declaration_required := []
                         phototoxicity_limits := []
                         total_allergen_limits := Option.none }
          loaded := true }
    | some s => { standards := s, loaded := true }

/-! Concrete instances used by the witnesses and counterexamples. -/

/-- A restricted substance banned in cat1 (the Coumarin scenario of the
standards data). -/
def coumarinEntry : RestrictedSubstance :=
  { name := "coumarin", cas := some "91-64-5"
    max_concentration_cat1 := some 0, max_concentration_cat2 := some 0
    reason := some "Sensitizer" }

def coumarinStd : Standards := { restricted_substances := [coumarinEntry] }

def coumarinIng : Ingredient := { name := "Coumarin", concentration := mkRat 8 10 }

/-- A restricted substance allowed up to 5% in cat1 but banned in cat2:
the two category limits disagree, which separates the category-sensitive
reading from the code. -/
def muskEntry : RestrictedSubstance :=
  { name := "musk ambrette"
    max_concentration_cat1 := some 5, max_concentration_cat2 := some 0 }

def muskStd : Standards := { restricted_substances := [muskEntry] }

def muskIng : Ingredient := { name := "Musk Ambrette", concentration := 1 }

/-- Standards whose cat1 and cat2 total-allergen caps disagree. -/
def capsStd : Standards :=
  { allergens_declaration_required :=
      [{ name := "linalool", cas := some "78-70-6", threshold_cat1 := some (mkRat 1 1000) }]
    total_allergen_limits :=
      some { cat1_leave_on := some { max_total_percentage := some 5 }
             cat2_rinse_off := some { max_total_percentage := some (mkRat 1 10) } }
  }

def linaloolIngBig : Ingredient := { name := "Linalool", concentration := 2 }

/-- Standards under which a formula produces only the aggregate
allergen-load warning (cap 0.5, one declared allergen at 1%). -/
def warnOnlyStd : Standards :=
  { allergens_declaration_required :=
      [{ name := "linalool", threshold_cat1 := some (mkRat 1 1000) }]
    total_allergen_limits :=
      some { cat1_leave_on := some { max_total_percentage := some (mkRat 5 10) } } }

def linaloolIng : Ingredient := { name := "Linalool", concentration := 1 }

/-- A phototoxicity entry whose name strictly contains the queried
ingredient name, so the bidirectional match of `validate_formula` fires
while the one-directional match of `get_max_concentration` does not. -/
def bergamotStd : Standards :=
  { phototoxicity_limits := [{ name := "Bergamot Oil", max_concentration_cat1 := some 2 }] }

def bergaIng : Ingredient := { name := "berga", concentration := 5 }

/-- A restricted entry with a nonzero cat1 limit. -/
def limoneneEntry : RestrictedSubstance :=
  { name := "limonene", max_concentration_cat1 := some (mkRat 16 10) }

def limoneneStd : Standards := { restricted_substances := [limoneneEntry] }

/-- A physiological rule on low pH (from `physio_rules.json`). -/
def phRule : PhysioRule :=
  { id := "rule_ph_low"
    condition := { parameter := "ph", operator := "<", value := some (.num (mkRat 52 10)) }
    target := "base_notes", action := "increase"
    factor := some (mkRat 12 10)
    reasoning := "Acidic skin accelerates evaporation" }

/-- A rule on skin type, matched by equality. -/
def skinRule : PhysioRule :=
  { id := "rule_skin_dry"
    condition := { parameter := "skin_type", operator := "==", value := some (.str "dry") }
    target := "fixatives", action := "increase" }

/-- A rule on the allergy list, matched by `contains`. -/
def allergyRule : PhysioRule :=
  { id := "rule_allergy"
    condition := { parameter := "allergies", operator := "contains", value := some (.str "linalool") }
    target := "linalool", action := "substitute" }

/-- A profile with a dry-skin field and no `ph` key. -/
def dryProfile : Profile := [("skin_type", Value.str "dry")]

/-- The §8 scenario profile: `{ph: 4.8, skin_type: "dry"}`. -/
def acidicProfile : Profile :=
  [("ph", Value.num (mkRat 48 10)), ("skin_type", Value.str "dry")]

/-! Theorems. -/

/-- The helper `qadd` is rational addition. -/
theorem qadd_eq_add (a b : ℚ) : qadd a b = a + b := (Rat.add_def' a b).symm

/-- The `+=` accumulation from an arbitrary start. -/
theorem foldl_qadd (l : List ℚ) : ∀ a : ℚ, l.foldl qadd a = a + l.sum := by
  induction l with
  | nil => intro a; simp
  | cons x xs ih =>
      intro a
      rw [List.foldl_cons, qadd_eq_add, ih, List.sum_cons]
      ring

/-- The helper `qsum` is the list sum. -/
theorem qsum_eq_sum (l : List ℚ) : qsum l = l.sum := by
  rw [qsum, foldl_qadd, zero_add]

/-- The per-rule matching of `_keyword_query` and of
`get_applicable_rules` are the same predicate: their `if/elif` chains
differ only in where the final comparison sits. -/
theorem matches_agree (profile : Profile) (rule : PhysioRule) :
    keywordRuleMatches profile rule = applicableRuleMatches profile rule := by
  unfold keywordRuleMatches applicableRuleMatches
  cases hv : rule.condition.value with
  | none => rfl
  | some v =>
    cases hl : List.lookup rule.condition.parameter profile with
    | none => rfl
    | some u =>
      by_cases h1 : rule.condition.operator = "<" ∧ u.isNum ∧ v.isNum
      · simp only [if_pos h1]
      · by_cases h2 : rule.condition.operator = ">" ∧ u.isNum ∧ v.isNum
        · simp only [if_neg h1, if_pos h2]
        · by_cases h3 : rule.condition.operator = "=="
          · have h5 : ¬ (rule.condition.operator = "contains" ∧ u.isList) := by
              rintro ⟨hc, -⟩; rw [h3] at hc; exact absurd hc (by decide)
            have h5' : ¬ (rule.condition.operator = "contains" ∧ u.isList
                ∧ valueContains v u) := fun hc => h5 ⟨hc.1, hc.2.1⟩
            by_cases h4 : u = v
            · simp [h1, h2, h3, h4]
            · simp [h1, h2, h3, h4, h5, h5']
          · by_cases h5 : rule.condition.operator = "contains" ∧ u.isList
            · by_cases h6 : valueContains v u
              · simp [h1, h2, h3, h5, h6]
              · simp [h1, h2, h3, h5, h6]
            · have h5' : ¬ (rule.condition.operator = "contains" ∧ u.isList
                  ∧ valueContains v u) := fun hc => h5 ⟨hc.1, hc.2.1⟩
              simp [h1, h2, h3, h5, h5']

/-- A conditional `filterMap` is a `filter` followed by a `map`. -/
theorem filterMap_if_eq {α β : Type} (p : α → Bool) (f : α → β) (l : List α) :
    (l.filterMap (fun a => if p a then some (f a) else Option.none))
      = (l.filter p).map f := by
  induction l with
  | nil => rfl
  | cons x xs ih =>
      by_cases h : p x <;>
        simp [List.filterMap_cons, List.filter_cons, h, ih]

/-- Inserting into a list of elements with the same relevance puts the
element in front (the `≥` comparison keeps the stable order). -/
theorem insertDesc_all_eq (x : RetrievedRule) (l : List RetrievedRule) (c : ℚ)
    (hx : x.relevance_score = c) (hl : ∀ y ∈ l, y.relevance_score = c) :
    insertDesc x l = x :: l := by
  cases l with
  | nil => rfl
  | cons y ys =>
      unfold insertDesc
      rw [if_pos]
      rw [hx, hl y (List.mem_cons_self y ys)]

/-- Sorting a list whose relevance scores are all equal is the
identity. -/
theorem sortDesc_all_eq (l : List RetrievedRule) (c : ℚ)
    (h : ∀ y ∈ l, y.relevance_score = c) : sortByRelevanceDesc l = l := by
  induction l with
  | nil => rfl
  | cons x xs ih =>
      have hxs : ∀ y ∈ xs, y.relevance_score = c :=
        fun y hy => h y (List.mem_cons_of_mem x hy)
      have hfold : sortByRelevanceDesc xs = xs := ih hxs
      unfold sortByRelevanceDesc at hfold ⊢
      rw [List.foldr_cons, hfold,
        insertDesc_all_eq x xs c (h x (List.mem_cons_self x xs)) hxs]

/-- The keyword-fallback query is the capped prefix of the exact-match
rule list, wrapped. -/
theorem keyword_query_eq (rules : List PhysioRule) (profile : Profile) (n : Nat) :
    keywordQuery rules profile n
      = ((get_applicable_rules rules profile).map mkRetrieved).take n := by
  have hfm : (rules.filterMap (fun rule =>
        if keywordRuleMatches profile rule then some (mkRetrieved rule) else Option.none))
      = (rules.filter (fun rule => applicableRuleMatches profile rule)).map mkRetrieved := by
    rw [filterMap_if_eq, List.filter_congr (fun r _ => matches_agree profile r)]
  have hsort : sortByRelevanceDesc
        ((rules.filter (fun rule => applicableRuleMatches profile rule)).map mkRetrieved)
      = (rules.filter (fun rule => applicableRuleMatches profile rule)).map mkRetrieved := by
    apply sortDesc_all_eq _ (mkRat 9 10)
    intro y hy
    rcases List.mem_map.mp hy with ⟨r, -, rfl⟩
    rfl
  show (sortByRelevanceDesc (rules.filterMap (fun rule =>
      if keywordRuleMatches profile rule then some (mkRetrieved rule) else Option.none))).take n
    = ((rules.filter (fun rule => applicableRuleMatches profile rule)).map mkRetrieved).take n
  rw [hfm, hsort]

/-- C4: In keyword-fallback mode, for every profile and every n ≥ 0,
`query(profile, n)` returns exactly the first `min(n, k)` elements of
`applicableRules(profile)` in the rule set's original load order (where
`k` is the number of matching rules), each wrapped as a `RetrievedRule`
with relevance_score exactly `0.9`: every match receives the same fixed
relevance, the descending sort is stable, so ranking never reorders the
original rule order. -/
theorem keyword_query_is_ranked_take (rules : List PhysioRule) (profile : Profile)
    (n : Nat) :
    keywordQuery rules profile n
      = ((get_applicable_rules rules profile).map mkRetrieved).take n
    ∧ (keywordQuery rules profile n).length
      = min n (get_applicable_rules rules profile).length
    ∧ (keywordQuery rules profile n).all
        (fun rr => decide (rr.relevance_score = mkRat 9 10)) := by
  refine ⟨keyword_query_eq rules profile n, ?_, ?_⟩
  · rw [keyword_query_eq rules profile n, List.length_take, List.length_map]
  · rw [List.all_eq_true]
    intro rr hrr
    rw [keyword_query_eq rules profile n] at hrr
    rcases List.mem_map.mp (List.mem_of_mem_take hrr) with ⟨r, -, rfl⟩
    exact decide_eq_true rfl

/-- C5: fallback `query(profile, n)` returns at most `n` rules, each
satisfying its condition against the profile under the shared operator
semantics; `applicableRules(profile)` contains exactly the rules of the
rule set whose conditions match (no cap), and the fallback query result
is always a subset of it. -/
theorem keyword_query_sound_applicable_complete (rules : List PhysioRule)
    (profile : Profile) (n : Nat) :
    (keywordQuery rules profile n).length ≤ n
    ∧ (keywordQuery rules profile n).all
        (fun rr => keywordRuleMatches profile rr.rule)
    ∧ rules.all (fun r =>
        applicableRuleMatches profile r == decide (r ∈ get_applicable_rules rules profile))
    ∧ (get_applicable_rules rules profile).all
        (fun r => decide (r ∈ rules) && applicableRuleMatches profile r)
    ∧ (keywordQuery rules profile n).all
        (fun rr => decide (rr.rule ∈ get_applicable_rules rules profile)) := by
  refine ⟨?_, ?_, ?_, ?_, ?_⟩
  · rw [keyword_query_eq rules profile n, List.length_take]
    exact Nat.min_le_left _ _
  · rw [List.all_eq_true]
    intro rr hrr
    rw [keyword_query_eq rules profile n] at hrr
    rcases List.mem_map.mp (List.mem_of_mem_take hrr) with ⟨r, hr, rfl⟩
    show keywordRuleMatches profile r = true
    rw [matches_agree]
    exact (List.mem_filter.mp hr).2
  · rw [List.all_eq_true]
    intro r hr
    rcases hm : applicableRuleMatches profile r with _ | _ <;>
      simp [get_applicable_rules, List.mem_filter, hr, hm]
  · rw [List.all_eq_true]
    intro r hr
    rcases List.mem_filter.mp hr with ⟨hmem, hmatch⟩
    simp [hmem, hmatch]
  · rw [List.all_eq_true]
    intro rr hrr
    rw [keyword_query_eq rules profile n] at hrr
    rcases List.mem_map.mp (List.mem_of_mem_take hrr) with ⟨r, hr, rfl⟩
    simpa using hr

/-- The fallible per-rule evaluation never raises and agrees with the
pure matching: the `param not in user_profile` test protects the
subscript and the `isinstance` guards protect the comparisons. -/
theorem evalRuleE_ok (profile : Profile) (rule : PhysioRule) :
    evalRuleE profile rule = Except.ok (keywordRuleMatches profile rule) := by
  unfold evalRuleE keywordRuleMatches pySubscript
  cases hv : rule.condition.value with
  | none => rfl
  | some v =>
    cases hl : List.lookup rule.condition.parameter profile with
    | none => simp [hl]
    | some u =>
      simp only [hl, Option.isNone_some, Bool.false_eq_true, if_false]
      by_cases h1 : rule.condition.operator = "<" ∧ u.isNum ∧ v.isNum
      · rcases h1 with ⟨ho, hu, hv2⟩
        cases u <;> cases v <;>
          simp_all [pyLtE, valueLt, Value.isNum]
      · by_cases h2 : rule.condition.operator = ">" ∧ u.isNum ∧ v.isNum
        · rcases h2 with ⟨ho, hu, hv2⟩
          cases u <;> cases v <;>
            simp_all [pyGtE, valueGt, Value.isNum]
        · simp only [if_neg h1, if_neg h2]
          by_cases h3 : rule.condition.operator = "=="
          · simp [h3]
          · by_cases h4 : rule.condition.operator = "contains" ∧ u.isList
            · simp [h3, h4]
            · simp [h3, h4]

/-- The fallible match-collection loop of `_keyword_query` never
raises. -/
theorem keywordMatchedE_ok (profile : Profile) (rules : List PhysioRule) :
    keywordMatchedE profile rules
      = Except.ok (rules.filterMap (fun rule =>
          if keywordRuleMatches profile rule then some (mkRetrieved rule)
          else Option.none)) := by
  induction rules with
  | nil => rfl
  | cons r rs ih =>
      rw [keywordMatchedE, evalRuleE_ok, ih]
      cases hb : keywordRuleMatches profile r <;>
        simp [List.filterMap_cons, hb]

/-- The fallible loop of `get_applicable_rules` never raises. -/
theorem applicableRulesE_ok (profile : Profile) (rules : List PhysioRule) :
    applicableRulesE profile rules = Except.ok (get_applicable_rules rules profile) := by
  induction rules with
  | nil => rfl
  | cons r rs ih =>
      rw [applicableRulesE, evalRuleE_ok, ih, matches_agree]
      cases hb : applicableRuleMatches profile r <;>
        simp [get_applicable_rules, List.filter_cons, hb]

/-- C8: rule-condition evaluation is total: a missing profile key, a
`None` rule value, or a type mismatch (non-numeric operand for `<`/`>`,
non-list profile value for `contains`) makes the rule a non-match, and
neither the fallback query loop nor `get_applicable_rules` ever raises
— the fallible evaluators always return `ok` of the pure results. -/
theorem rule_eval_total_and_fail_closed (rules : List PhysioRule) (profile : Profile)
    (n : Nat) (rule : PhysioRule)
    (h : List.lookup rule.condition.parameter profile = Option.none
       ∨ rule.condition.value = Option.none
       ∨ (∀ u v, List.lookup rule.condition.parameter profile = some u →
            rule.condition.value = some v →
            ((rule.condition.operator = "<" ∨ rule.condition.operator = ">")
                ∧ (u.isNum && v.isNum) = false
              ∨ rule.condition.operator = "contains" ∧ u.isList = false))) :
    keywordQueryE rules profile n = Except.ok (keywordQuery rules profile n)
    ∧ applicableRulesE profile rules = Except.ok (get_applicable_rules rules profile)
    ∧ keywordRuleMatches profile rule = false
    ∧ applicableRuleMatches profile rule = false := by
  have htot : keywordQueryE rules profile n = Except.ok (keywordQuery rules profile n) := by
    unfold keywordQueryE keywordQuery
    rw [keywordMatchedE_ok]
  have hnm : keywordRuleMatches profile rule = false := by
    unfold keywordRuleMatches
    cases hv : rule.condition.value with
    | none => rfl
    | some v =>
      cases hl : List.lookup rule.condition.parameter profile with
      | none => rfl
      | some u =>
        rcases h with h | h | h
        · rw [hl] at h; exact absurd h (by simp)
        · rw [hv] at h; exact absurd h (by simp)
        · rcases h u v hl hv with ⟨ho, hmm⟩ | ⟨ho, hmm⟩
          · have hnn : ¬ (u.isNum ∧ v.isNum) := by
              rintro ⟨ha, hb⟩; rw [ha, hb] at hmm; exact absurd hmm (by simp)
            have g1 : ¬ (rule.condition.operator = "<" ∧ u.isNum ∧ v.isNum) := by
              rintro ⟨-, hc⟩; exact hnn hc
            have g2 : ¬ (rule.condition.operator = ">" ∧ u.isNum ∧ v.isNum) := by
              rintro ⟨-, hc⟩; exact hnn hc
            have g3 : ¬ (rule.condition.operator = "==") := by
              intro hc
              rcases ho with ho | ho <;> (rw [hc] at ho; exact absurd ho (by decide))
            have g4 : ¬ (rule.condition.operator = "contains" ∧ u.isList) := by
              rintro ⟨hc, -⟩
              rcases ho with ho | ho <;> (rw [hc] at ho; exact absurd ho (by decide))
            simp [g1, g2, g3, g4]
          · have g1 : ¬ (rule.condition.operator = "<" ∧ u.isNum ∧ v.isNum) := by
              rintro ⟨hc, -⟩; rw [ho] at hc; exact absurd hc (by decide)
            have g2 : ¬ (rule.condition.operator = ">" ∧ u.isNum ∧ v.isNum) := by
              rintro ⟨hc, -⟩; rw [ho] at hc; exact absurd hc (by decide)
            have g3 : ¬ (rule.condition.operator = "==") := by
              intro hc; rw [ho] at hc; exact absurd hc (by decide)
            have g4 : ¬ (rule.condition.operator = "contains" ∧ u.isList) := by
              rintro ⟨-, hc⟩; rw [hmm] at hc; exact absurd hc (by decide)
            simp [g1, g2, g3, g4]
  refine ⟨htot, applicableRulesE_ok profile rules, hnm, ?_⟩
  rw [← matches_agree]
  exact hnm

/-- Witness for C8 at a concrete input: the rule conditions on `ph`
while the profile only carries `skin_type`. -/
theorem rule_eval_total_and_fail_closed_witness :
    keywordQueryE [phRule] dryProfile 5 = Except.ok (keywordQuery [phRule] dryProfile 5)
    ∧ applicableRulesE dryProfile [phRule]
        = Except.ok (get_applicable_rules [phRule] dryProfile)
    ∧ keywordRuleMatches dryProfile phRule = false
    ∧ applicableRuleMatches dryProfile phRule = false :=
  rule_eval_total_and_fail_closed [phRule] dryProfile 5 phRule (Or.inl (by decide))

/-- Every violation of the restricted-substance check is critical, of
type `banned` or `over_limit`. -/
theorem restrictedViolations_fields (rm : List (String × RestrictedSubstance))
    (ing : Ingredient) :
    ∀ v ∈ restrictedViolations rm ing,
      v.severity = "critical"
      ∧ (v.violation_type = "banned" ∨ v.violation_type = "over_limit") := by
  intro v hv
  unfold restrictedViolations at hv
  split at hv
  · exact absurd hv (List.not_mem_nil v)
  · split_ifs at hv with h1 h2
    · rcases List.mem_singleton.mp hv with rfl
      exact ⟨rfl, Or.inl rfl⟩
    · rcases List.mem_singleton.mp hv with rfl
      exact ⟨rfl, Or.inr rfl⟩
    · exact absurd hv (List.not_mem_nil v)

/-- Every violation of the phototoxicity check is critical, of type
`phototoxicity`. -/
theorem phototoxViolations_fields (pm : List (String × PhototoxEntry))
    (ing : Ingredient) :
    ∀ v ∈ phototoxViolations pm ing,
      v.severity = "critical" ∧ v.violation_type = "phototoxicity" := by
  intro v hv
  rcases List.mem_filterMap.mp hv with ⟨entry, -, heq⟩
  split_ifs at heq with h1 h2
  · rcases Option.some.inj heq with rfl
    exact ⟨rfl, rfl⟩

/-- Every violation of the allergen check is critical, of type
`banned`. -/
theorem allergenBannedViolations_fields (am : List (String × AllergenEntry))
    (ing : Ingredient) :
    ∀ v ∈ allergenBannedViolations am ing,
      v.severity = "critical" ∧ v.violation_type = "banned" := by
  intro v hv
  rcases List.mem_filterMap.mp hv with ⟨entry, -, heq⟩
  split_ifs at heq with h1 h2
  · rcases Option.some.inj heq with rfl
    exact ⟨rfl, rfl⟩

/-- Every collected declaration crossed its (nonzero) threshold with the
ingredient's concentration. -/
theorem allergenDecls_fields (am : List (String × AllergenEntry)) (ing : Ingredient) :
    ∀ d ∈ allergenDecls am ing,
      d.threshold ≠ 0 ∧ d.threshold ≤ d.concentration := by
  intro d hd
  rcases List.mem_filterMap.mp hd with ⟨entry, -, heq⟩
  split_ifs at heq with h1 h2 h3
  · rcases Option.some.inj heq with rfl
    exact ⟨h2, h3⟩

/-- Every per-ingredient violation is critical and of a per-ingredient
type. -/
theorem perIng_fields (rm : List (String × RestrictedSubstance))
    (pm : List (String × PhototoxEntry)) (am : List (String × AllergenEntry))
    (ing : Ingredient) :
    ∀ v ∈ perIngredientViolations rm pm am ing,
      v.severity = "critical"
      ∧ v.violation_type ≠ "allergen_load"
      ∧ v.violation_type ≠ "allergen_declaration" := by
  intro v hv
  unfold perIngredientViolations at hv
  rcases List.mem_append.mp hv with hv' | hv
  · rcases List.mem_append.mp hv' with hv | hv
    · rcases restrictedViolations_fields rm ing v hv with ⟨hs, ht | ht⟩ <;>
        exact ⟨hs, by rw [ht]; decide, by rw [ht]; decide⟩
    · rcases phototoxViolations_fields pm ing v hv with ⟨hs, ht⟩
      exact ⟨hs, by rw [ht]; decide, by rw [ht]; decide⟩
  · rcases allergenBannedViolations_fields am ing v hv with ⟨hs, ht⟩
    exact ⟨hs, by rw [ht]; decide, by rw [ht]; decide⟩

/-- Lifting `perIng_fields` through the ingredient loop. -/
theorem formulaViolations0_fields (std : Standards) (ings : List Ingredient) :
    ∀ v ∈ formulaViolations0 std ings,
      v.severity = "critical"
      ∧ v.violation_type ≠ "allergen_load"
      ∧ v.violation_type ≠ "allergen_declaration" := by
  intro v hv
  rcases List.mem_flatMap.mp hv with ⟨ing, -, hv⟩
  exact perIng_fields _ _ _ ing v hv

/-- The report's fields are the named components. -/
theorem validate_violations (std : Standards) (ings : List Ingredient) (cat : String) :
    (validate_formula std ings cat).violations = formulaViolations std ings := rfl

theorem validate_decls (std : Standards) (ings : List Ingredient) (cat : String) :
    (validate_formula std ings cat).allergens_to_declare = formulaDecls std ings := rfl

theorem validate_load (std : Standards) (ings : List Ingredient) (cat : String) :
    (validate_formula std ings cat).total_allergen_load = formulaLoad std ings := rfl

theorem validate_compliant (std : Standards) (ings : List Ingredient) (cat : String) :
    (validate_formula std ings cat).is_compliant
      = decide (((formulaViolations std ings).filter
          (fun v => v.severity = "critical")).length = 0) := rfl

/-- The per-ingredient violations never have type `allergen_load`, so
filtering for it isolates the aggregate tail. -/
theorem formulaViolations_load_filter (std : Standards) (ings : List Ingredient) :
    (formulaViolations std ings).filter (fun v => v.violation_type = "allergen_load")
      = if formulaLoad std ings > maxTotalAllergen std then
          [allergenLoadViolation (formulaLoad std ings) (maxTotalAllergen std)]
        else [] := by
  have hpre : (formulaViolations0 std ings).filter
      (fun v => v.violation_type = "allergen_load") = [] :=
    List.filter_eq_nil_iff.mpr (fun v hv => by
      simp [(formulaViolations0_fields std ings v hv).2.1])
  unfold formulaViolations
  by_cases h : formulaLoad std ings > maxTotalAllergen std
  · rw [if_pos h, if_pos h, List.filter_append, hpre]
    rfl
  · rw [if_neg h, if_neg h, hpre]

/-- Dropping the aggregate allergen-load violation leaves exactly the
per-ingredient violations. -/
theorem formulaViolations_nonload (std : Standards) (ings : List Ingredient) :
    (formulaViolations std ings).filter (fun v => v.violation_type ≠ "allergen_load")
      = formulaViolations0 std ings := by
  have hpre : (formulaViolations0 std ings).filter
      (fun v => v.violation_type ≠ "allergen_load") = formulaViolations0 std ings :=
    List.filter_eq_self.mpr (fun v hv => by
      simp [(formulaViolations0_fields std ings v hv).2.1])
  unfold formulaViolations
  by_cases h : formulaLoad std ings > maxTotalAllergen std
  · rw [if_pos h, List.filter_append, hpre]
    simp [allergenLoadViolation]
  · rw [if_neg h, hpre]

/-- The critical violations are exactly the critical per-ingredient
violations (the aggregate tail is a warning). -/
theorem formulaViolations_critical (std : Standards) (ings : List Ingredient) :
    (formulaViolations std ings).filter (fun v => v.severity = "critical")
      = (formulaViolations0 std ings).filter (fun v => v.severity = "critical") := by
  unfold formulaViolations
  by_cases h : formulaLoad std ings > maxTotalAllergen std
  · rw [if_pos h, List.filter_append]
    simp [allergenLoadViolation]
  · rw [if_neg h]

/-- Per-ingredient violations end up in the report, whatever the
category and the other ingredients. -/
theorem mem_validate_violations (std : Standards) (ings : List Ingredient)
    (cat : String) (ing : Ingredient) (v : IFRAViolation)
    (hing : ing ∈ ings)
    (hv : v ∈ perIngredientViolations
        (buildMap (fun s => strLower s.name) std.restricted_substances)
        (buildMap (fun p => strLower p.name) std.phototoxicity_limits)
        (buildMap (fun a => strLower a.name) std.allergens_declaration_required) ing) :
    v ∈ (validate_formula std ings cat).violations := by
  have h0 : v ∈ formulaViolations0 std ings := List.mem_flatMap.mpr ⟨ing, hing, hv⟩
  rw [validate_violations]
  unfold formulaViolations
  by_cases h : formulaLoad std ings > maxTotalAllergen std
  · rw [if_pos h]; exact List.mem_append_left _ h0
  · rw [if_neg h]; exact h0

/-- C10: in every report, every violation is critical except at most one
violation of type `allergen_load` with severity warning, which is the
last element when present; no violation has severity `info`. -/
theorem validate_severity_partition (std : Standards) (ings : List Ingredient)
    (cat : String) :
    ∃ pre tail,
      (validate_formula std ings cat).violations = pre ++ tail
      ∧ pre.all (fun v => v.severity == "critical")
      ∧ (tail = [] ∨ ∃ w, tail = [w]
          ∧ w.violation_type = "allergen_load" ∧ w.severity = "warning")
      ∧ (validate_formula std ings cat).violations.all
          (fun v => v.severity != "info") := by
  have hpre : (formulaViolations0 std ings).all (fun v => v.severity == "critical") := by
    rw [List.all_eq_true]
    intro v hv
    rw [(formulaViolations0_fields std ings v hv).1]
    rfl
  have hinfo : ∀ v ∈ (validate_formula std ings cat).violations,
      (v.severity != "info") = true := by
    intro v hv
    rw [validate_violations] at hv
    unfold formulaViolations at hv
    by_cases h : formulaLoad std ings > maxTotalAllergen std
    · rw [if_pos h] at hv
      rcases List.mem_append.mp hv with hv | hv
      · rw [(formulaViolations0_fields std ings v hv).1]; rfl
      · rcases List.mem_singleton.mp hv with rfl; rfl
    · rw [if_neg h] at hv
      rw [(formulaViolations0_fields std ings v hv).1]; rfl
  rw [validate_violations]
  unfold formulaViolations
  by_cases h : formulaLoad std ings > maxTotalAllergen std
  · rw [if_pos h]
    refine ⟨formulaViolations0 std ings,
      [allergenLoadViolation (formulaLoad std ings) (maxTotalAllergen std)],
      rfl, hpre, Or.inr ⟨_, rfl, rfl, rfl⟩, ?_⟩
    rw [List.all_eq_true]
    intro v hv
    exact hinfo v (by rw [validate_violations]; unfold formulaViolations; rw [if_pos h]; exact hv)
  · rw [if_neg h]
    refine ⟨formulaViolations0 std ings, [], (List.append_nil _).symm, hpre, Or.inl rfl, ?_⟩
    rw [List.all_eq_true]
    intro v hv
    exact hinfo v (by rw [validate_violations]; unfold formulaViolations; rw [if_neg h]; exact hv)

/-- C3: `is_compliant` is true iff the violation list contains zero
severity-critical entries; a report whose violations are all warnings is
compliant. -/
theorem is_compliant_iff_no_critical (std : Standards) (ings : List Ingredient)
    (cat : String) :
    ((validate_formula std ings cat).is_compliant = true
      ↔ ((validate_formula std ings cat).violations.filter
          (fun v => v.severity = "critical")).length = 0)
    ∧ ((validate_formula std ings cat).violations.all
          (fun v => v.severity == "warning") = true
        → (validate_formula std ings cat).is_compliant = true) := by
  constructor
  · rw [validate_compliant, validate_violations]
    exact decide_eq_true_iff
  · intro h
    rw [validate_compliant]
    apply decide_eq_true
    rw [← validate_violations std ings cat]
    rw [List.length_eq_zero, List.filter_eq_nil_iff]
    intro v hv
    have hw : v.severity = "warning" := by
      simpa using List.all_eq_true.mp h v hv
    simp [hw]

/-- Witness for C3: a report whose only violation is the allergen-load
warning is compliant. -/
theorem is_compliant_iff_no_critical_witness :
    (validate_formula warnOnlyStd [linaloolIng] "cat1").is_compliant = true :=
  (is_compliant_iff_no_critical warnOnlyStd [linaloolIng] "cat1").2 (by decide)

/-- C9: the category argument of `validate_formula` is echoed into the
report and influences nothing else — the reports for any two categories
agree except for the `product_category` field. -/
theorem validate_category_echo_only (std : Standards) (ings : List Ingredient)
    (cat other : String) :
    validate_formula std ings cat
      = { validate_formula std ings other with product_category := cat }
    ∧ (validate_formula std ings cat).product_category = cat :=
  ⟨rfl, rfl⟩

/-- C2 (amended): the total allergen load is the sum of the
concentrations of the declared entries, each of which crossed its
nonzero threshold; declaring is never itself a violation; exactly one
`allergen_load` violation appears iff the load strictly exceeds the
`cat1_leave_on` cap (with default `1.0`) — regardless of the passed
category — and it carries severity warning; compliance is decided by
the critical violations among the other violations alone. -/
theorem allergen_load_accounting (std : Standards) (ings : List Ingredient)
    (cat : String) :
    (validate_formula std ings cat).total_allergen_load
      = ((validate_formula std ings cat).allergens_to_declare.map
          (fun d => d.concentration)).sum
    ∧ (validate_formula std ings cat).allergens_to_declare.all
        (fun d => !decide (d.threshold = 0) && decide (d.threshold ≤ d.concentration))
    ∧ (validate_formula std ings cat).violations.all
        (fun v => v.violation_type != "allergen_declaration")
    ∧ ((validate_formula std ings cat).violations.filter
          (fun v => v.violation_type = "allergen_load")).length
      = (if (validate_formula std ings cat).total_allergen_load > maxTotalAllergen std
          then 1 else 0)
    ∧ (validate_formula std ings cat).violations.all
        (fun v => v.violation_type != "allergen_load" || v.severity == "warning")
    ∧ (validate_formula std ings cat).is_compliant
      = decide ((((validate_formula std ings cat).violations.filter
            (fun v => v.violation_type ≠ "allergen_load")).filter
            (fun v => v.severity = "critical")).length = 0) := by
  refine ⟨?_, ?_, ?_, ?_, ?_, ?_⟩
  · rw [validate_load, validate_decls]
    unfold formulaLoad
    exact qsum_eq_sum _
  · rw [validate_decls, List.all_eq_true]
    intro d hd
    rcases List.mem_flatMap.mp hd with ⟨ing, -, hd⟩
    rcases allergenDecls_fields _ ing d hd with ⟨h1, h2⟩
    simp [h1, h2]
  · rw [validate_violations, List.all_eq_true]
    intro v hv
    unfold formulaViolations at hv
    by_cases h : formulaLoad std ings > maxTotalAllergen std
    · rw [if_pos h] at hv
      rcases List.mem_append.mp hv with hv | hv
      · simp [(formulaViolations0_fields std ings v hv).2.2]
      · rcases List.mem_singleton.mp hv with rfl; rfl
    · rw [if_neg h] at hv
      simp [(formulaViolations0_fields std ings v hv).2.2]
  · rw [validate_violations, validate_load, formulaViolations_load_filter]
    by_cases h : formulaLoad std ings > maxTotalAllergen std
    · rw [if_pos h, if_pos h]; rfl
    · rw [if_neg h, if_neg h]; rfl
  · rw [validate_violations, List.all_eq_true]
    intro v hv
    unfold formulaViolations at hv
    by_cases h : formulaLoad std ings > maxTotalAllergen std
    · rw [if_pos h] at hv
      rcases List.mem_append.mp hv with hv | hv
      · simp [(formulaViolations0_fields std ings v hv).2.1]
      · rcases List.mem_singleton.mp hv with rfl; rfl
    · rw [if_neg h] at hv
      simp [(formulaViolations0_fields std ings v hv).2.1]
  · rw [validate_compliant, validate_violations, formulaViolations_nonload,
      formulaViolations_critical]

/-- C2 counterexample: with a cat2 rinse-off cap of `0.1` and a cat1 cap
of `5`, a cat2 validation whose allergen load is `2` — strictly above
the cat2 cap — emits no `allergen_load` violation, because the code
always reads the `cat1_leave_on` cap. -/
theorem allergen_cap_category_counterexample :
    (validate_formula capsStd [linaloolIngBig] "cat2").total_allergen_load = 2
    ∧ capsStd.total_allergen_limits
        = some { cat1_leave_on := some { max_total_percentage := some 5 }
                 cat2_rinse_off := some { max_total_percentage := some (mkRat 1 10) } }
    ∧ (2 : ℚ) > mkRat 1 10
    ∧ ((validate_formula capsStd [linaloolIngBig] "cat2").violations.filter
        (fun v => v.violation_type = "allergen_load")).length = 0 := by
  refine ⟨by decide, by decide, by decide, by decide⟩

/-- C1 (amended): the restricted-substance check always compares against
the entry's `max_concentration_cat1` (with `.get` default `0`), whatever
category is passed: a zero cat1 limit yields the `banned` critical
violation with `max_allowed 0`, a strictly exceeded nonzero cat1 limit
yields the `over_limit` critical violation with `max_allowed` equal to
that limit. -/
theorem validate_restricted_uses_cat1 (std : Standards) (ings : List Ingredient)
    (cat : String) (ing : Ingredient) (restricted : RestrictedSubstance)
    (hing : ing ∈ ings)
    (hr : List.lookup (strLower ing.name)
        (buildMap (fun s => strLower s.name) std.restricted_substances)
        = some restricted) :
    (restricted.max_concentration_cat1.getD 0 = 0 →
      bannedRestrictedViolation ing restricted
          ∈ (validate_formula std ings cat).violations
      ∧ (bannedRestrictedViolation ing restricted).violation_type = "banned"
      ∧ (bannedRestrictedViolation ing restricted).severity = "critical"
      ∧ (bannedRestrictedViolation ing restricted).max_allowed = 0)
    ∧ (restricted.max_concentration_cat1.getD 0 ≠ 0 →
       ing.concentration > restricted.max_concentration_cat1.getD 0 →
      overLimitViolation ing restricted ∈ (validate_formula std ings cat).violations
      ∧ (overLimitViolation ing restricted).violation_type = "over_limit"
      ∧ (overLimitViolation ing restricted).severity = "critical"
      ∧ (overLimitViolation ing restricted).max_allowed
          = restricted.max_concentration_cat1.getD 0) := by
  constructor
  · intro hzero
    have hmem : bannedRestrictedViolation ing restricted
        ∈ restrictedViolations
          (buildMap (fun s => strLower s.name) std.restricted_substances) ing := by
      unfold restrictedViolations
      rw [hr]
      dsimp only
      rw [if_pos hzero]
      exact List.mem_singleton_self _
    exact ⟨mem_validate_violations std ings cat ing _ hing
        (List.mem_append_left _ (List.mem_append_left _ hmem)), rfl, rfl, rfl⟩
  · intro hnz hover
    have hmem : overLimitViolation ing restricted
        ∈ restrictedViolations
          (buildMap (fun s => strLower s.name) std.restricted_substances) ing := by
      unfold restrictedViolations
      rw [hr]
      dsimp only
      rw [if_neg hnz, if_pos hover]
      exact List.mem_singleton_self _
    exact ⟨mem_validate_violations std ings cat ing _ hing
        (List.mem_append_left _ (List.mem_append_left _ hmem)), rfl, rfl, rfl⟩

/-- Witness for C1 (amended): the banned Coumarin scenario. -/
theorem validate_restricted_uses_cat1_witness :
    bannedRestrictedViolation coumarinIng coumarinEntry
      ∈ (validate_formula coumarinStd [coumarinIng] "cat1").violations :=
  ((validate_restricted_uses_cat1 coumarinStd [coumarinIng] "cat1" coumarinIng
      coumarinEntry (by decide) (by decide)).1 (by decide)).1

/-- C1 counterexample: with cat2 limit `0` and cat1 limit `5`, a cat2
validation of the substance at concentration `1` emits no violation at
all and stays compliant — the claimed cat2 comparison (which would ban
it) does not happen. -/
theorem validate_cat2_limit_counterexample :
    muskEntry.max_concentration_cat2 = some 0
    ∧ muskIng.concentration = 1
    ∧ (validate_formula muskStd [muskIng] "cat2").violations = []
    ∧ (validate_formula muskStd [muskIng] "cat2").is_compliant = true := by
  refine ⟨by decide, by decide, by decide, by decide⟩

/-- C6 (amended): `get_max_concentration` returns the cat1 limit of the
first restricted entry whose lowercased name equals the queried name;
otherwise the cat1 limit of the first phototoxicity entry whose
lowercased name is a substring of the queried name (one direction only,
unlike the bidirectional phototoxicity match of `validate_formula`);
otherwise `none` ("unrestricted", distinct from `some 0` for a banned
substance). -/
theorem get_max_concentration_first_match (std : Standards)
    (ingredient_name cat : String) :
    (∀ restricted, std.restricted_substances.find?
        (fun r => strLower r.name == strLower ingredient_name) = some restricted →
      get_max_concentration std ingredient_name cat
        = restricted.max_concentration_cat1)
    ∧ (std.restricted_substances.find?
        (fun r => strLower r.name == strLower ingredient_name) = Option.none →
      (∀ phototox, std.phototoxicity_limits.find?
          (fun p => pySubstring (strLower p.name) (strLower ingredient_name))
          = some phototox →
        get_max_concentration std ingredient_name cat
          = phototox.max_concentration_cat1)
      ∧ (std.phototoxicity_limits.find?
          (fun p => pySubstring (strLower p.name) (strLower ingredient_name))
          = Option.none →
        get_max_concentration std ingredient_name cat = Option.none)) := by
  refine ⟨?_, ?_⟩
  · intro restricted hfind
    unfold get_max_concentration
    rw [hfind]
  · intro hnone
    refine ⟨?_, ?_⟩
    · intro phototox hfind
      unfold get_max_concentration
      rw [hnone, hfind]
    · intro hnone2
      unfold get_max_concentration
      rw [hnone, hnone2]

/-- Witness for C6 (amended): the restricted Limonene entry is found by
exact name match. -/
theorem get_max_concentration_first_match_witness :
    get_max_concentration limoneneStd "Limonene" "cat1" = some (mkRat 16 10) :=
  (get_max_concentration_first_match limoneneStd "Limonene" "cat1").1
    limoneneEntry (by decide)

/-- C6 counterexample: `validate_formula` matches `berga` against the
`Bergamot Oil` phototoxicity entry (bidirectional substring) and flags
it, while `get_max_concentration` — whose match is one-directional —
reports the same name as unrestricted. -/
theorem get_max_direction_counterexample :
    get_max_concentration bergamotStd "berga" "cat1" = Option.none
    ∧ pySubstring (strLower "berga") (strLower "Bergamot Oil") = true
    ∧ ((validate_formula bergamotStd [bergaIng] "cat1").violations.map
        (fun v => v.violation_type)) = ["phototoxicity"] := by
  refine ⟨by decide, by decide, by decide⟩

/-- C7: `_load_standards` is idempotent (second call is a no-op), but
`initialize` is not — calling it a second time re-appends the rule file,
duplicating every rule, because `_load_rules` only resets the list when
the file is absent. -/
theorem initialization_not_idempotent :
    (initEngine (some [phRule]) (initEngine (some [phRule]) ragInitState)).rules
      = [phRule, phRule]
    ∧ (initEngine (some [phRule]) ragInitState).rules = [phRule]
    ∧ (∀ file st, load_standards file (load_standards file st)
        = load_standards file st) := by
  refine ⟨by decide, by decide, ?_⟩
  intro file st
  by_cases h : st.loaded = true
  · cases file <;> simp [load_standards, h]
  · rw [Bool.not_eq_true] at h
    cases file <;> simp [load_standards, h]

end Sensora
